import Mathlib

/-!
Verification of the sensor lifecycle and fleet coordination layer of the
MA-smart-home repository.

The Python source is shallowly embedded: pure functions become Lean
functions, the stateful parts (sensor nodes, the fleet manager, the run
loop) become explicit state passing over structures, and fallible Python
code (raised exceptions) is returned through Except.  Python floats are
modelled symbolically as a finite rational, an infinity, or NaN: the
validation code only inspects these shapes and never performs float
arithmetic, so no rounding behaviour is lost.
-/

namespace MASmartHome

/-- A Python float as inspected by the validation code of
src/core/types/sensor_reading.py: a finite value (carried exactly as a
rational), positive or negative infinity, or NaN. -/
inductive PyFloat where
  | finite (q : ℚ)
  | inf
  | negInf
  | nan
  deriving DecidableEq

/-- A Python object passed as the value field of a SensorReading: None, a
string, or a float.  These are the shapes the validation pipeline of
src/core/types/sensor_reading.py distinguishes. -/
inductive ValueInput where
  | vnone
  | vstr (s : String)
  | vfloat (f : PyFloat)
  deriving DecidableEq

/-- Python exceptions raised by the embedded code. -/
inductive PyError where
  | keyError (key : String)
  | attributeError (msg : String)
  | validationError (msg : String)
  deriving DecidableEq

/-- SensorReading.check_value (src/core/types/sensor_reading.py, lines
28-36), in source order: reject None, reject any string, reject NaN,
return the value unchanged otherwise. -/
def check_value (v : ValueInput) : Except String ValueInput :=
  match v with
  | ValueInput.vnone => Except.error "The value cannot be None"
  | ValueInput.vstr _ => Except.error "The value cannot be a string"
  | ValueInput.vfloat PyFloat.nan => Except.error "The value cannot be NaN"
  | ValueInput.vfloat f => Except.ok (ValueInput.vfloat f)

/-- Whitespace characters stripped around a Python numeric string. -/
def isPySpace (c : Char) : Bool :=
  c == ' ' || c == '\t' || c == '\n' || c == '\r' || c == '\x0b' || c == '\x0c'

/-- Numeric value of a non-empty all-digit character list. -/
def digitsVal (cs : List Char) : Option ℕ :=
  if cs = [] then none
  else if cs.all Char.isDigit then
    some (cs.foldl (fun a c => 10 * a + (c.toNat - 48)) 0)
  else none

/-- Value of an optional digit run, empty meaning zero (used for the parts
around a decimal point, where one side may be empty). -/
def digitsValOr0 (cs : List Char) : ℕ :=
  cs.foldl (fun a c => 10 * a + (c.toNat - 48)) 0

/-- Parse the mantissa part of a Python float literal: digits, optionally
split by one decimal point, with at least one digit present. -/
def parseMantissa (cs : List Char) : Option ℚ :=
  let ip := cs.takeWhile (fun c => c ≠ '.')
  let rest := cs.dropWhile (fun c => c ≠ '.')
  match rest with
  | [] => (digitsVal ip).map (fun n => (n : ℚ))
  | _ :: fp =>
    if (ip ≠ [] ∨ fp ≠ []) ∧ ip.all Char.isDigit ∧ fp.all Char.isDigit then
      some ((digitsValOr0 ip : ℚ) + (digitsValOr0 fp : ℚ) / ((10 : ℚ) ^ fp.length))
    else none

/-- Strip one optional leading sign; returns whether the sign was minus and
the remaining characters. -/
def parseSign (cs : List Char) : Bool × List Char :=
  match cs with
  | '+' :: r => (false, r)
  | '-' :: r => (true, r)
  | r => (false, r)

/-- Parse an unsigned Python numeric literal: mantissa with an optional
e-exponent. -/
def parseNumeric (cs : List Char) : Option ℚ :=
  let mant := cs.takeWhile (fun c => c ≠ 'e' ∧ c ≠ 'E')
  let rest := cs.dropWhile (fun c => c ≠ 'e' ∧ c ≠ 'E')
  match rest with
  | [] => parseMantissa mant
  | _ :: ex =>
    let sr := parseSign ex
    match parseMantissa mant, digitsVal sr.2 with
    | some m, some e =>
      some (if sr.1 then m / ((10 : ℚ) ^ e) else m * ((10 : ℚ) ^ e))
    | _, _ => none

/-- Model of the string-to-float conversion pydantic applies to a string
value before the custom validator runs (lax mode): strip whitespace and
digit-group underscores, an optional sign, then inf, infinity or nan in any
case, or a decimal literal with optional fraction and exponent.  Where
Python restricts underscore or whitespace placement this model is
deliberately more liberal (it accepts a superset of the strings Python
accepts), so a none result here implies the Python conversion fails too;
accepted numeric strings carry their exact rational value, eliding the
final rounding to a 64-bit float, which no claim inspects. -/
def pyFloatOfString (s : String) : Option PyFloat :=
  let cs := (s.toList.filter (fun c => ¬ isPySpace c)).filter (fun c => c ≠ '_')
  let sb := parseSign cs
  let lower := sb.2.map Char.toLower
  if lower = "inf".toList ∨ lower = "infinity".toList then
    some (if sb.1 then PyFloat.negInf else PyFloat.inf)
  else if lower = "nan".toList then some PyFloat.nan
  else
    match parseNumeric sb.2 with
    | some q => some (PyFloat.finite (if sb.1 then -q else q))
    | none => none

/-- Pydantic lax validation of the value field declared as float: a float
passes through, a string must parse as a number, None is rejected.  This
runs before the custom validator check_value. -/
def floatFieldValidate (v : ValueInput) : Except String PyFloat :=
  match v with
  | ValueInput.vnone => Except.error "Input should be a valid number"
  | ValueInput.vstr s =>
    match pyFloatOfString s with
    | some f => Except.ok f
    | none => Except.error "Input should be a valid number, unable to parse string as a number"
  | ValueInput.vfloat f => Except.ok f

/-- Full validation of the value field at construction: pydantic float
validation, then check_value on the coerced float (where only the NaN
branch can still fire). -/
def validateValue (v : ValueInput) : Except String PyFloat :=
  match floatFieldValidate v with
  | Except.error e => Except.error e
  | Except.ok f =>
    match check_value (ValueInput.vfloat f) with
    | Except.error e => Except.error e
    | Except.ok _ => Except.ok f

/-- The closed set of sensor_type tags: the Literal on line 12 of
src/core/types/sensor_reading.py. -/
def sensorTypeLiterals : List String := ["temperature", "humidity", "motion_ir", "position"]

/-- The closed set of unit tags: the Literal on line 13 of
src/core/types/sensor_reading.py. -/
def unitOfMeasureLiterals : List String := ["°C", "%", "lux", "boolean", "integer", "float"]

/-- A validated SensorReading value object (src/core/types/sensor_reading.py,
lines 16-26).  The timestamp is in the model an integer point in time. -/
structure SensorReading where
  sensor_id : String
  sensor_type : String
  value : PyFloat
  unit : String
  timestamp : ℤ
  deriving DecidableEq

/-- Construction of a SensorReading: pydantic validates sensor_id length at
least 1, sensor_type and unit against their closed Literal sets, and the
value through validateValue; timestamp defaults to the current time (passed
in as now, modelling the default_factory).  Pydantic collects all field
errors before failing; since every claim only distinguishes success from
failure, the first error in field order is returned. -/
def mkSensorReading (sensor_id sensor_type : String) (value : ValueInput)
    (unit : String) (timestamp : Option ℤ) (now : ℤ) : Except String SensorReading :=
  if sensor_id.length < 1 then
    Except.error "String should have at least 1 character"
  else if sensor_type ∈ sensorTypeLiterals then
    match validateValue value with
    | Except.error e => Except.error e
    | Except.ok f =>
      if unit ∈ unitOfMeasureLiterals then
        Except.ok { sensor_id := sensor_id, sensor_type := sensor_type, value := f,
                    unit := unit, timestamp := timestamp.getD now }
      else Except.error "unit: input should be a member of the UnitOfMeasure Literal"
  else Except.error "sensor_type: input should be a member of the SensorType Literal"

/-- True when the result is an error (a raised exception). -/
def isErr {ε α : Type} (r : Except ε α) : Bool :=
  match r with
  | Except.error _ => true
  | Except.ok _ => false

/-- Modelled from the spec: the sensor-type tagged enumeration of
core/sensors/types/sensor_reading.py, the module the sensor node classes
import; that module is absent from the source tree (only
core/types/sensor_reading.py is present, carrying the same closed set as a
Literal).  Spec section 3 fixes the closed set: temperature, humidity,
motion-infrared, position. -/
inductive NodeSensorType where
  | temperature
  | humidity
  | motion_ir
  | position
  deriving DecidableEq

/-- The string tag of a node sensor-type enumeration member (its Python
value attribute). -/
def NodeSensorType.value : NodeSensorType → String
  | NodeSensorType.temperature => "temperature"
  | NodeSensorType.humidity => "humidity"
  | NodeSensorType.motion_ir => "motion_ir"
  | NodeSensorType.position => "position"

/-- The attributes of a sensor node that the lifecycle claims inspect
(src/core/sensors/sensor_node.py, constructor lines 26-32): the id, the
type, the sampling interval, and the shared running flag.  The transport
stub and logger handles carry no modelled state of their own. -/
structure NodeState where
  sensor_id : String
  sensor_type : NodeSensorType
  interval : ℚ
  running : Bool
  deriving DecidableEq

/-- TemperatureSensor construction
(src/core/sensors/temperature_sensor.py, lines 20-32, delegating to
SensorNode.__init__): type fixed to temperature, running starts False
(sensor_node.py line 29). -/
def TemperatureSensor.init (sensor_id : String) (interval : ℚ) : NodeState :=
  { sensor_id := sensor_id, sensor_type := NodeSensorType.temperature,
    interval := interval, running := false }

/-- TemperatureSensor.stop (lines 71-72): a single plain assignment of the
running flag to False; no conditional, nothing can raise.  The Except
result records that no exception is possible. -/
def NodeState.stop (st : NodeState) : Except PyError NodeState :=
  Except.ok { st with running := false }

/-- n consecutive stop calls. -/
def stopTimes : ℕ → NodeState → NodeState
  | 0, st => st
  | n + 1, st => stopTimes n { st with running := false }

/-- run entry (temperature_sensor.py line 46): self.running = True,
unconditional, before the first loop check. -/
def runEntry (st : NodeState) : NodeState := { st with running := true }

/-- TemperatureSensor.read_data (lines 34-40): builds a SensorReading with
this node id, this node type tag, unit °C, and the value drawn by
random.uniform(18, 30); the random draw is supplied as the argument v, the
timestamp default as now. -/
def read_data (st : NodeState) (v : ℚ) (now : ℤ) : Except String SensorReading :=
  mkSensorReading st.sensor_id st.sensor_type.value
    (ValueInput.vfloat (PyFloat.finite v)) "°C" none now

/-- Outcome of one transport send attempt: the acknowledgement message on
success, or the grpc.RpcError detail string on failure. -/
inductive SendOutcome where
  | success (message : String)
  | rpcError (details : String)
  deriving DecidableEq

/-- One log line emitted by the run loop (lines 60-67); carried as
structured data rather than the exact Python format string: an
informational sent line with the value, the type tag and the
acknowledgement message, or an error line with the failure detail. -/
inductive LogLine where
  | sent (sensor_id : String) (value : PyFloat) (sensor_type : String) (ackMessage : String)
  | grpcError (sensor_id : String) (details : String)
  deriving DecidableEq

/-- The log line iteration i of the loop produces, given the value read and
the transport outcome of that iteration. -/
def iterLog (st : NodeState) (v : ℚ) (o : SendOutcome) : LogLine :=
  match o with
  | SendOutcome.success m =>
    LogLine.sent st.sensor_id (PyFloat.finite v) st.sensor_type.value m
  | SendOutcome.rpcError d => LogLine.grpcError st.sensor_id d

/-- One execution of the while body of TemperatureSensor.run (lines 47-69),
entered after the top-of-loop check read True: read_data, build the proto
payload with a millisecond timestamp t, attempt the send with outcome o,
log exactly one line, sleep for the interval.  Only grpc.RpcError is
caught (line 66): a Reading-construction failure inside read_data would
escape run() and is surfaced as an error. -/
def runIteration (st : NodeState) (v : ℚ) (t : ℤ) (o : SendOutcome) :
    Except String LogLine :=
  match read_data st v t with
  | Except.error e => Except.error e
  | Except.ok _ => Except.ok (iterLog st v o)

/-- The while loop of run() from check number i with the given fuel bound on
how many top-of-loop checks are unfolded.  values, clock and outcomes are
the streams of random draws, wall-clock readings and transport outcomes;
flag i is the value of the shared running field observed by check number i
under the schedule of concurrent stop writes being considered (run entry
writes True before check 0; stop is the only other writer and writes
False).  none means the loop has not exited within fuel checks, so run()
has not returned there; some (ok log) is a normal return with the log
lines of the completed iterations; some (error e) is run() terminated by an
uncaught exception. -/
def runLoop (st : NodeState) (values : ℕ → ℚ) (clock : ℕ → ℤ)
    (outcomes : ℕ → SendOutcome) (flag : ℕ → Bool) :
    ℕ → ℕ → Option (Except String (List LogLine))
  | 0, _ => none
  | fuel + 1, i =>
    if flag i then
      match runIteration st (values i) (clock i) (outcomes i) with
      | Except.error e => some (Except.error e)
      | Except.ok line =>
        match runLoop st values clock outcomes flag fuel (i + 1) with
        | none => none
        | some (Except.error e) => some (Except.error e)
        | some (Except.ok rest) => some (Except.ok (line :: rest))
    else some (Except.ok [])

/-- get_metadata builds a new dict literal on every call
(src/core/sensors/sensor_node.py, lines 53-57).  Dicts live on a small
explicit heap so that freshness and independent mutability are expressible:
an address is an index into the heap's list of dicts. -/
abbrev PyDict := List (String × String)

/-- The heap of allocated dicts. -/
structure Heap where
  dicts : List PyDict
  deriving DecidableEq

/-- Allocate a fresh dict, returning its address. -/
def Heap.alloc (h : Heap) (d : PyDict) : ℕ × Heap :=
  (h.dicts.length, ⟨h.dicts ++ [d]⟩)

/-- Read the dict at an address. -/
def Heap.dictAt (h : Heap) (a : ℕ) : Option PyDict :=
  h.dicts[a]?

/-- Python dict assignment d[k] = v: replace the binding if the key is
present, append it otherwise. -/
def dictSet (d : PyDict) (k v : String) : PyDict :=
  if d.any (fun p => p.1 = k) then
    d.map (fun p => if p.1 = k then (k, v) else p)
  else d ++ [(k, v)]

/-- Mutate one key of the dict at an address. -/
def Heap.setKey (h : Heap) (a : ℕ) (k v : String) : Heap :=
  match h.dicts[a]? with
  | none => h
  | some d => ⟨h.dicts.set a (dictSet d k v)⟩

/-- SensorNode.get_metadata (lines 53-57): return a freshly allocated dict
holding exactly the node id and the node type tag; the node itself is
returned unchanged (the method only reads it). -/
def get_metadata (st : NodeState) (h : Heap) : NodeState × ℕ × Heap :=
  (st, h.alloc [("id", st.sensor_id), ("type", st.sensor_type.value)])

/-- SensorType enumeration passed to the manager
(src/core/sensors/sensor_enum.py, lines 9-15). -/
inductive SensorType where
  | temperature
  | humidity
  | light
  | motion
  deriving DecidableEq

/-- The value attribute of a manager SensorType member. -/
def SensorType.value : SensorType → String
  | SensorType.temperature => "temperature"
  | SensorType.humidity => "humidity"
  | SensorType.light => "light"
  | SensorType.motion => "motion"

/-- A sensor class appearing as a constructor in the manager's mapping. -/
inductive SensorCtor where
  | temperatureSensor
  deriving DecidableEq

/-- SENSOR_TYPE_MAPPING (src/core/sensors/sensor_manager.py, lines 16-18):
the closed type-to-constructor dict; it has exactly the one temperature
entry. -/
def SENSOR_TYPE_MAPPING : List (String × SensorCtor) :=
  [("temperature", SensorCtor.temperatureSensor)]

/-- Dict lookup in SENSOR_TYPE_MAPPING; none models a KeyError. -/
def mappingLookup (k : String) : Option SensorCtor :=
  (SENSOR_TYPE_MAPPING.find? (fun p => p.1 = k)).map (fun p => p.2)

/-- Apply a constructor from the mapping to the generated id and interval
(the shared stub is an unmodelled handle). -/
def applyCtor (c : SensorCtor) (sensor_id : String) (interval : ℚ) : NodeState :=
  match c with
  | SensorCtor.temperatureSensor => TemperatureSensor.init sensor_id interval

/-- The manager state (src/core/sensors/sensor_manager.py, lines 29-36):
the target address, the ordered sensor registry, and the recorded
execution units.  A thread handle is represented by the node whose run()
the thread executes. -/
structure SensorManagerState where
  server_address : String
  sensors : List NodeState
  threads : List NodeState
  deriving DecidableEq

/-- SensorManager construction (lines 29-36): fixed address, empty registry,
no threads. -/
def SensorManager.init (addr : String) : SensorManagerState :=
  { server_address := addr, sensors := [], threads := [] }

/-- A Python value passed as the sensor_type argument of add_sensor.  The
code reads only the value attribute of the argument and uses it as a dict
key, performing no isinstance check: what matters is whether the argument
has a value attribute and, if so, which string it holds.  enumMember is a
member of the SensorType enum; objWithValue is any other object carrying a
value attribute; nonValueObj is an object without one, such as a raw
string, for which the attribute access itself raises AttributeError. -/
inductive AddSensorArg where
  | enumMember (t : SensorType)
  | objWithValue (v : String)
  | nonValueObj (descr : String)
  deriving DecidableEq

/-- Reading the value attribute of an add_sensor argument. -/
def AddSensorArg.valueAttr : AddSensorArg → Except PyError String
  | AddSensorArg.enumMember t => Except.ok t.value
  | AddSensorArg.objWithValue v => Except.ok v
  | AddSensorArg.nonValueObj d => Except.error (PyError.attributeError d)

/-- add_sensor (lines 38-52): evaluate SENSOR_TYPE_MAPPING[sensor_type.value]
— AttributeError if the argument has no value attribute, KeyError if the
value is not a mapping key — then construct the node with id
sensor_(len(sensors)+1) and the given interval and append it.  Both error
cases raise before anything is constructed or appended. -/
def add_sensor (m : SensorManagerState) (arg : AddSensorArg) (interval : ℚ) :
    Except PyError SensorManagerState :=
  match arg.valueAttr with
  | Except.error e => Except.error e
  | Except.ok v =>
    match mappingLookup v with
    | none => Except.error (PyError.keyError v)
    | some c =>
      let sensor := applyCtor c ("sensor_" ++ toString (m.sensors.length + 1)) interval
      Except.ok { m with sensors := m.sensors ++ [sensor] }

/-- One attempted add_sensor call as seen by a caller that survives the
exception: on a raise the manager object is unchanged (the raise happens
before the append). -/
def tryAddSensor (m : SensorManagerState) (arg : AddSensorArg) (interval : ℚ) :
    SensorManagerState :=
  match add_sensor m arg interval with
  | Except.ok m2 => m2
  | Except.error _ => m

/-- A fresh manager followed by n add_sensor calls with the temperature
member (the only mapped type) and per-call intervals. -/
def addTemperatureN (addr : String) (ivs : ℕ → ℚ) : ℕ → SensorManagerState
  | 0 => SensorManager.init addr
  | n + 1 =>
    tryAddSensor (addTemperatureN addr ivs n)
      (AddSensorArg.enumMember SensorType.temperature) (ivs n)

/-- start_all (lines 54-60): for every registered sensor, in registry order,
launch a daemon thread running that sensor's run() and record its handle;
no waiting on any loop iteration. -/
def start_all (m : SensorManagerState) : SensorManagerState :=
  { m with threads := m.threads ++ m.sensors.map (fun s => s) }

/-- The first phase of stop_all (lines 64-65): invoke stop() on every
registered sensor — each a plain flag write, signal only, non-blocking.
The second phase (lines 66-67) joins every recorded thread; a join is
modelled by the loop-exit facts proved about runLoop. -/
def stop_all_signals (m : SensorManagerState) : SensorManagerState :=
  { m with sensors := m.sensors.map (fun s => { s with running := false }) }

/-- Every node sensor-type tag is in the closed Literal set of the reading
model. -/
theorem nodeSensorType_value_mem (t : NodeSensorType) : t.value ∈ sensorTypeLiterals := by
  cases t <;> simp [NodeSensorType.value, sensorTypeLiterals]

/-- read_data succeeds whenever the node id is non-empty: the type tag and
unit are members of their closed sets and a finite value passes the value
pipeline. -/
theorem read_data_ok (st : NodeState) (hid : 1 ≤ st.sensor_id.length) (v : ℚ) (now : ℤ) :
    read_data st v now = Except.ok
      { sensor_id := st.sensor_id, sensor_type := st.sensor_type.value,
        value := PyFloat.finite v, unit := "°C", timestamp := now } := by
  unfold read_data mkSensorReading
  rw [if_neg (by omega)]
  rw [if_pos (nodeSensorType_value_mem st.sensor_type)]
  simp [validateValue, floatFieldValidate, check_value, unitOfMeasureLiterals]

/-- An iteration of the loop body always completes, producing exactly one
log line, whatever the transport outcome. -/
theorem runIteration_ok (st : NodeState) (hid : 1 ≤ st.sensor_id.length)
    (v : ℚ) (t : ℤ) (o : SendOutcome) :
    runIteration st v t o = Except.ok (iterLog st v o) := by
  unfold runIteration
  rw [read_data_ok st hid]

/-- Under a schedule in which no stop write is ever observed, the loop
never exits: run() does not return, whatever the outcomes. -/
theorem runLoop_no_stop (st : NodeState) (hid : 1 ≤ st.sensor_id.length)
    (values : ℕ → ℚ) (clock : ℕ → ℤ) (outcomes : ℕ → SendOutcome) :
    ∀ fuel i, runLoop st values clock outcomes (fun _ => true) fuel i = none := by
  intro fuel
  induction fuel with
  | zero => intro i; rfl
  | succ n ih =>
    intro i
    simp only [runLoop, if_true, runIteration_ok st hid, ih (i + 1)]

/-- Under a schedule whose checks read True exactly before check k, the
loop exits with one log line per completed iteration: iterations i to k-1
when unfolded from check i, for any sufficient fuel, whatever the
outcomes. -/
theorem runLoop_exits (st : NodeState) (hid : 1 ≤ st.sensor_id.length)
    (values : ℕ → ℚ) (clock : ℕ → ℤ) (outcomes : ℕ → SendOutcome) (k : ℕ) :
    ∀ fuel i, k < i + fuel → i ≤ k →
      runLoop st values clock outcomes (fun j => decide (j < k)) fuel i =
        some (Except.ok ((List.range' i (k - i)).map
          (fun j => iterLog st (values j) (outcomes j)))) := by
  intro fuel
  induction fuel with
  | zero => intro i h1 h2; omega
  | succ n ih =>
    intro i h1 h2
    by_cases hik : i < k
    · simp only [runLoop]
      rw [if_pos (by simpa using hik), runIteration_ok st hid,
        ih (i + 1) (by omega) (by omega)]
      have hk : k - i = (k - (i + 1)) + 1 := by omega
      rw [hk, List.range'_succ]
      simp
    · have hik2 : i = k := by omega
      subst hik2
      simp [runLoop]

/-- When the loop exits normally, the check it exited at read False: right
after run() returns, the shared running flag observably holds False. -/
theorem runLoop_exit_flag_false (st : NodeState)
    (values : ℕ → ℚ) (clock : ℕ → ℤ) (outcomes : ℕ → SendOutcome) (flag : ℕ → Bool) :
    ∀ fuel i log, runLoop st values clock outcomes flag fuel i = some (Except.ok log) →
      flag (i + log.length) = false := by
  intro fuel
  induction fuel with
  | zero => intro i log h; simp [runLoop] at h
  | succ n ih =>
    intro i log h
    simp only [runLoop] at h
    by_cases hf : flag i = true
    · rw [if_pos hf] at h
      cases hri : runIteration st (values i) (clock i) (outcomes i) with
      | error e => rw [hri] at h; simp at h
      | ok line =>
        rw [hri] at h
        cases hrl : runLoop st values clock outcomes flag n (i + 1) with
        | none => rw [hrl] at h; simp at h
        | some r =>
          cases r with
          | error e => rw [hrl] at h; simp at h
          | ok rest =>
            rw [hrl] at h
            simp only [Option.some.injEq, Except.ok.injEq] at h
            have hrec := ih (i + 1) rest hrl
            have hlen : i + log.length = (i + 1) + rest.length := by
              rw [← h]; simp; omega
            rw [hlen]
            exact hrec
    · rw [if_neg hf] at h
      simp only [Option.some.injEq, Except.ok.injEq] at h
      have hlen : log.length = 0 := by rw [← h]; rfl
      rw [hlen]
      simpa using hf

/-- A finite or infinite float passes the full value pipeline unchanged. -/
theorem validateValue_vfloat (f : PyFloat) (hf : f ≠ PyFloat.nan) :
    validateValue (ValueInput.vfloat f) = Except.ok f := by
  cases f with
  | finite q => rfl
  | inf => rfl
  | negInf => rfl
  | nan => exact absurd rfl hf

/-- With the other fields valid, construction reduces to the value
pipeline. -/
theorem mkSensorReading_valid_fields (id ty u : String) (ts : Option ℤ) (now : ℤ)
    (hid : 1 ≤ id.length) (hty : ty ∈ sensorTypeLiterals)
    (hu : u ∈ unitOfMeasureLiterals) (v : ValueInput) :
    mkSensorReading id ty v u ts now =
      match validateValue v with
      | Except.error e => Except.error e
      | Except.ok f =>
        Except.ok { sensor_id := id, sensor_type := ty, value := f, unit := u,
                    timestamp := ts.getD now } := by
  unfold mkSensorReading
  rw [if_neg (by omega), if_pos hty]
  cases validateValue v with
  | error e => rfl
  | ok f => simp [if_pos hu]

/-- C2: for every input to the Reading value field, with the other fields
valid: construction fails when the input is None, when it is a textual
value the float conversion cannot parse as a number, and when it is NaN;
construction succeeds for every finite value (zero and negative included)
and for both infinities, and the stored value equals the input exactly. -/
theorem reading_value_validation (id ty u : String) (ts : Option ℤ) (now : ℤ)
    (hid : 1 ≤ id.length) (hty : ty ∈ sensorTypeLiterals)
    (hu : u ∈ unitOfMeasureLiterals) :
    (isErr (mkSensorReading id ty ValueInput.vnone u ts now) = true)
    ∧ (∀ s : String, pyFloatOfString s = none →
        isErr (mkSensorReading id ty (ValueInput.vstr s) u ts now) = true)
    ∧ (isErr (mkSensorReading id ty (ValueInput.vfloat PyFloat.nan) u ts now) = true)
    ∧ (∀ f : PyFloat, f ≠ PyFloat.nan →
        mkSensorReading id ty (ValueInput.vfloat f) u ts now =
          Except.ok { sensor_id := id, sensor_type := ty, value := f, unit := u,
                      timestamp := ts.getD now }) := by
  refine ⟨?_, ?_, ?_, ?_⟩
  · rw [mkSensorReading_valid_fields id ty u ts now hid hty hu]
    rfl
  · intro s hs
    rw [mkSensorReading_valid_fields id ty u ts now hid hty hu]
    simp [validateValue, floatFieldValidate, hs, isErr]
  · rw [mkSensorReading_valid_fields id ty u ts now hid hty hu]
    rfl
  · intro f hf
    rw [mkSensorReading_valid_fields id ty u ts now hid hty hu,
      validateValue_vfloat f hf]

/-- Witness for C2 at concrete inputs: id sensor_1, type temperature, unit
°C; the non-numeric text abc, NaN, the finite value -2 and positive
infinity. -/
theorem reading_value_validation_witness :
    (isErr (mkSensorReading "sensor_1" "temperature" ValueInput.vnone "°C" none 0) = true)
    ∧ (isErr (mkSensorReading "sensor_1" "temperature" (ValueInput.vstr "abc") "°C" none 0) = true)
    ∧ (isErr (mkSensorReading "sensor_1" "temperature" (ValueInput.vfloat PyFloat.nan) "°C" none 0) = true)
    ∧ (mkSensorReading "sensor_1" "temperature" (ValueInput.vfloat (PyFloat.finite (-2))) "°C" none 0 =
        Except.ok { sensor_id := "sensor_1", sensor_type := "temperature",
                    value := PyFloat.finite (-2), unit := "°C", timestamp := 0 })
    ∧ (mkSensorReading "sensor_1" "temperature" (ValueInput.vfloat PyFloat.inf) "°C" none 0 =
        Except.ok { sensor_id := "sensor_1", sensor_type := "temperature",
                    value := PyFloat.inf, unit := "°C", timestamp := 0 }) := by
  have h := reading_value_validation "sensor_1" "temperature" "°C" none 0
    (by decide) (by decide) (by decide)
  exact ⟨h.1, h.2.1 "abc" (by decide), h.2.2.1,
    h.2.2.2 (PyFloat.finite (-2)) (by decide), h.2.2.2 PyFloat.inf (by decide)⟩

/-- C7: with the other fields valid, construction fails for every
sensor_type outside the closed Literal set and for every unit outside its
closed Literal set; for members of both sets construction succeeds and the
stored tags equal the inputs — no silent coercion. -/
theorem reading_enum_closure (id : String) (v : PyFloat) (ts : Option ℤ) (now : ℤ)
    (hid : 1 ≤ id.length) (hv : v ≠ PyFloat.nan) :
    (∀ ty u : String, ty ∉ sensorTypeLiterals →
        isErr (mkSensorReading id ty (ValueInput.vfloat v) u ts now) = true)
    ∧ (∀ ty u : String, u ∉ unitOfMeasureLiterals →
        isErr (mkSensorReading id ty (ValueInput.vfloat v) u ts now) = true)
    ∧ (∀ ty u : String, ty ∈ sensorTypeLiterals → u ∈ unitOfMeasureLiterals →
        mkSensorReading id ty (ValueInput.vfloat v) u ts now =
          Except.ok { sensor_id := id, sensor_type := ty, value := v, unit := u,
                      timestamp := ts.getD now }) := by
  refine ⟨?_, ?_, ?_⟩
  · intro ty u hty
    unfold mkSensorReading
    rw [if_neg (by omega), if_neg hty]
    rfl
  · intro ty u hu
    by_cases hty : ty ∈ sensorTypeLiterals
    · unfold mkSensorReading
      rw [if_neg (by omega), if_pos hty, validateValue_vfloat v hv]
      simp [isErr, hu]
    · unfold mkSensorReading
      rw [if_neg (by omega), if_neg hty]
      rfl
  · intro ty u hty hu
    rw [mkSensorReading_valid_fields id ty u ts now hid hty hu,
      validateValue_vfloat v hv]

/-- Witness for C7 at concrete inputs: the unknown tag light and the
unknown unit kelvin are rejected; the member pair humidity and percent is
accepted and stored unchanged. -/
theorem reading_enum_closure_witness :
    (isErr (mkSensorReading "sensor_1" "light" (ValueInput.vfloat (PyFloat.finite 20)) "°C" none 0) = true)
    ∧ (isErr (mkSensorReading "sensor_1" "temperature" (ValueInput.vfloat (PyFloat.finite 20)) "kelvin" none 0) = true)
    ∧ (mkSensorReading "sensor_1" "humidity" (ValueInput.vfloat (PyFloat.finite 20)) "%" none 0 =
        Except.ok { sensor_id := "sensor_1", sensor_type := "humidity",
                    value := PyFloat.finite 20, unit := "%", timestamp := 0 }) := by
  have h := reading_enum_closure "sensor_1" (PyFloat.finite 20) none 0 (by decide) (by decide)
  exact ⟨h.1 "light" "°C" (by decide), h.2.1 "temperature" "kelvin" (by decide),
    h.2.2 "humidity" "%" (by decide) (by decide)⟩

/-- Once the flag is false, any number of further stop calls keeps it
false. -/
theorem stopTimes_preserves_false : ∀ (n : ℕ) (st : NodeState), st.running = false →
    (stopTimes n st).running = false
  | 0, _, h => h
  | n + 1, st, _ => stopTimes_preserves_false n { st with running := false } rfl

/-- C4: stop() is a single unconditional flag assignment and can never
raise; immediately after any positive number of stop calls the running
flag is False; stop is idempotent; a fresh node, before run() has started,
already has running False, so zero calls leave it False there; and run()
exits only at a loop check that read False, so right after run() has
exited the flag is False and zero further calls leave it False. -/
theorem stop_idempotent_safe (st : NodeState) :
    (NodeState.stop st = Except.ok { st with running := false })
    ∧ (∀ n, 1 ≤ n → (stopTimes n st).running = false)
    ∧ (stopTimes 1 (stopTimes 1 st) = stopTimes 1 st)
    ∧ (∀ sid iv, (TemperatureSensor.init sid iv).running = false)
    ∧ (∀ (values : ℕ → ℚ) (clock : ℕ → ℤ) (outcomes : ℕ → SendOutcome)
        (flag : ℕ → Bool) (fuel i : ℕ) (log : List LogLine),
        runLoop st values clock outcomes flag fuel i = some (Except.ok log) →
          flag (i + log.length) = false) := by
  refine ⟨rfl, ?_, rfl, fun sid iv => rfl, ?_⟩
  · intro n hn
    cases n with
    | zero => omega
    | succ m => exact stopTimes_preserves_false m { st with running := false } rfl
  · intro values clock outcomes flag fuel i log h
    exact runLoop_exit_flag_false st values clock outcomes flag fuel i log h

/-- Witness for C4 at a concrete node: stop on a fresh sensor_1 node
returns normally with the flag False, two stop calls leave it False, and a
loop run that exited at check 0 had read False there. -/
theorem stop_idempotent_safe_witness :
    (NodeState.stop (TemperatureSensor.init "sensor_1" 2) =
      Except.ok { TemperatureSensor.init "sensor_1" 2 with running := false })
    ∧ ((stopTimes 2 (TemperatureSensor.init "sensor_1" 2)).running = false)
    ∧ (decide ((0 : ℕ) < 0) = false) := by
  have h := stop_idempotent_safe (TemperatureSensor.init "sensor_1" 2)
  exact ⟨h.1, h.2.1 2 (by omega),
    h.2.2.2.2 (fun _ => 20) (fun _ => 0) (fun _ => SendOutcome.success "ok")
      (fun j => decide (j < 0)) 1 0 [] rfl⟩

/-- C8: get_metadata is pure on the node and returns a fresh caller-owned
mapping on every call: two successive calls leave the node unchanged and
return dicts with equal contents — exactly the node id and type tag — at
distinct heap addresses, and mutating either returned dict does not change
the other. -/
theorem metadata_purity (st : NodeState) (hp : Heap) :
    ((get_metadata st hp).1 = st)
    ∧ ((get_metadata ((get_metadata st hp).1) ((get_metadata st hp).2.2)).1 = st)
    ∧ ((get_metadata st hp).2.1 ≠ (get_metadata st ((get_metadata st hp).2.2)).2.1)
    ∧ ((get_metadata st ((get_metadata st hp).2.2)).2.2.dictAt (get_metadata st hp).2.1 =
        some [("id", st.sensor_id), ("type", st.sensor_type.value)])
    ∧ ((get_metadata st ((get_metadata st hp).2.2)).2.2.dictAt
        (get_metadata st ((get_metadata st hp).2.2)).2.1 =
        some [("id", st.sensor_id), ("type", st.sensor_type.value)])
    ∧ (∀ k v, ((get_metadata st ((get_metadata st hp).2.2)).2.2.setKey
          (get_metadata st ((get_metadata st hp).2.2)).2.1 k v).dictAt
          (get_metadata st hp).2.1 =
        (get_metadata st ((get_metadata st hp).2.2)).2.2.dictAt (get_metadata st hp).2.1)
    ∧ (∀ k v, ((get_metadata st ((get_metadata st hp).2.2)).2.2.setKey
          (get_metadata st hp).2.1 k v).dictAt
          (get_metadata st ((get_metadata st hp).2.2)).2.1 =
        (get_metadata st ((get_metadata st hp).2.2)).2.2.dictAt
          (get_metadata st ((get_metadata st hp).2.2)).2.1) := by
  have hlen : (hp.dicts ++ [[("id", st.sensor_id), ("type", st.sensor_type.value)]]).length =
      hp.dicts.length + 1 := by simp
  refine ⟨rfl, rfl, ?_, ?_, ?_, ?_, ?_⟩
  · simp only [get_metadata, Heap.alloc]
    omega
  · simp only [get_metadata, Heap.alloc, Heap.dictAt]
    rw [List.getElem?_append_left (by simp), List.getElem?_concat_length]
  · simp only [get_metadata, Heap.alloc, Heap.dictAt, hlen]
    rw [show hp.dicts.length + 1 =
      (hp.dicts ++ [[("id", st.sensor_id), ("type", st.sensor_type.value)]]).length from
        hlen.symm, List.getElem?_concat_length]
  · intro k v
    simp only [get_metadata, Heap.alloc, Heap.dictAt, Heap.setKey, hlen]
    cases hlook : (hp.dicts ++ [[("id", st.sensor_id), ("type", st.sensor_type.value)]] ++
        [[("id", st.sensor_id), ("type", st.sensor_type.value)]])[hp.dicts.length + 1]? with
    | none => rfl
    | some d => exact List.getElem?_set_ne (by omega)
  · intro k v
    simp only [get_metadata, Heap.alloc, Heap.dictAt, Heap.setKey, hlen]
    cases hlook : (hp.dicts ++ [[("id", st.sensor_id), ("type", st.sensor_type.value)]] ++
        [[("id", st.sensor_id), ("type", st.sensor_type.value)]])[hp.dicts.length]? with
    | none => rfl
    | some d => exact List.getElem?_set_ne (by omega)

/-- A successful temperature add appends exactly the node generated with id
sensor_(len(sensors)+1) and the given interval. -/
theorem add_sensor_temperature_ok (m : SensorManagerState) (iv : ℚ) :
    add_sensor m (AddSensorArg.enumMember SensorType.temperature) iv =
      Except.ok { m with sensors := m.sensors ++
        [TemperatureSensor.init ("sensor_" ++ toString (m.sensors.length + 1)) iv] } := rfl

/-- Any successful add_sensor call, whatever the argument, went through the
single temperature entry of the mapping and appended the generated
temperature node. -/
theorem add_sensor_ok_shape (m : SensorManagerState) (arg : AddSensorArg) (iv : ℚ)
    (m2 : SensorManagerState) (h : add_sensor m arg iv = Except.ok m2) :
    ∃ v, arg.valueAttr = Except.ok v
      ∧ mappingLookup v = some SensorCtor.temperatureSensor
      ∧ m2 = { m with sensors := m.sensors ++
          [TemperatureSensor.init ("sensor_" ++ toString (m.sensors.length + 1)) iv] } := by
  unfold add_sensor at h
  split at h
  · simp at h
  · rename_i v hv
    split at h
    · simp at h
    · rename_i c hl
      cases c
      simp only [Except.ok.injEq] at h
      exact ⟨v, hv, hl, h.symm⟩

/-- The registry length after n successful temperature adds is n. -/
theorem addTemperatureN_length (addr : String) (ivs : ℕ → ℚ) :
    ∀ n : ℕ, (addTemperatureN addr ivs n).sensors.length = n := by
  intro n
  induction n with
  | zero => rfl
  | succ m ih =>
    simp [addTemperatureN, tryAddSensor, add_sensor_temperature_ok, ih]

/-- The id sequence after n successful temperature adds. -/
theorem addTemperatureN_ids (addr : String) (ivs : ℕ → ℚ) :
    ∀ n : ℕ, (addTemperatureN addr ivs n).sensors.map (fun s => s.sensor_id) =
      (List.range n).map (fun i => "sensor_" ++ toString (i + 1)) := by
  intro n
  induction n with
  | zero => rfl
  | succ m ih =>
    simp only [addTemperatureN, tryAddSensor, add_sensor_temperature_ok,
      addTemperatureN_length addr ivs m, List.map_append, ih, List.range_succ]
    simp [TemperatureSensor.init]

/-- C5 counterexample: a single add_sensor call with the humidity
enumeration member on a fresh manager (N = 1, type mix humidity) raises
KeyError and appends nothing, so the registry does not contain ids
sensor_1 through sensor_N. -/
theorem add_sensor_mix_counterexample :
    (add_sensor (SensorManager.init "localhost:50051")
        (AddSensorArg.enumMember SensorType.humidity) 2 =
      Except.error (PyError.keyError "humidity"))
    ∧ (tryAddSensor (SensorManager.init "localhost:50051")
        (AddSensorArg.enumMember SensorType.humidity) 2 =
      SensorManager.init "localhost:50051")
    ∧ ((SensorManager.init "localhost:50051").sensors.map (fun s => s.sensor_id) ≠
        ["sensor_1"]) := by
  refine ⟨rfl, rfl, by simp [SensorManager.init]⟩

/-- C5 (amended): after N consecutive add_sensor calls that all succeed —
equivalently N calls with the temperature member, the only type in the
mapping — the registry contains exactly N sensors whose ids are exactly
sensor_1 through sensor_N in creation order; each id is generated from the
counter len(sensors) + 1 at creation time. -/
theorem add_sensor_ids (addr : String) (ivs : ℕ → ℚ) (n : ℕ) :
    ((addTemperatureN addr ivs n).sensors.length = n)
    ∧ ((addTemperatureN addr ivs n).sensors.map (fun s => s.sensor_id) =
        (List.range n).map (fun i => "sensor_" ++ toString (i + 1)))
    ∧ (∀ (m : SensorManagerState) (iv : ℚ),
        add_sensor m (AddSensorArg.enumMember SensorType.temperature) iv =
          Except.ok { m with sensors := m.sensors ++
            [TemperatureSensor.init ("sensor_" ++ toString (m.sensors.length + 1)) iv] }) :=
  ⟨addTemperatureN_length addr ivs n, addTemperatureN_ids addr ivs n,
    fun m iv => add_sensor_temperature_ok m iv⟩

/-- C6 counterexample: an argument that is not a SensorType enumeration
member at all — any object whose value attribute holds the string
temperature — is accepted silently: no error is raised and a sensor is
constructed and appended, because add_sensor checks only the value
attribute and never the argument's type. -/
theorem add_sensor_ducktype_counterexample :
    add_sensor (SensorManager.init "localhost:50051")
        (AddSensorArg.objWithValue "temperature") 2 =
      Except.ok { server_address := "localhost:50051",
                  sensors := [TemperatureSensor.init "sensor_1" 2],
                  threads := [] } := by
  rfl

/-- C6 (amended): every argument without a value attribute (such as a raw
string) makes add_sensor fail synchronously with AttributeError, and every
argument whose value attribute is not a key of the closed mapping — an
unknown tag, or any enumeration member other than temperature — makes it
fail synchronously with KeyError; in every failing case the error reaches
the caller and the registry is unchanged, nothing constructed or appended.
Acceptance depends only on the value attribute, never on the type. -/
theorem add_sensor_rejects_unrecognized (m : SensorManagerState) (iv : ℚ) :
    (∀ d, add_sensor m (AddSensorArg.nonValueObj d) iv =
        Except.error (PyError.attributeError d)
      ∧ tryAddSensor m (AddSensorArg.nonValueObj d) iv = m)
    ∧ (∀ v, mappingLookup v = none →
        add_sensor m (AddSensorArg.objWithValue v) iv =
          Except.error (PyError.keyError v)
        ∧ tryAddSensor m (AddSensorArg.objWithValue v) iv = m)
    ∧ (∀ t : SensorType, t ≠ SensorType.temperature →
        add_sensor m (AddSensorArg.enumMember t) iv =
          Except.error (PyError.keyError t.value)
        ∧ tryAddSensor m (AddSensorArg.enumMember t) iv = m) := by
  refine ⟨fun d => ⟨rfl, rfl⟩, ?_, ?_⟩
  · intro v hv
    constructor
    · simp [add_sensor, AddSensorArg.valueAttr, hv]
    · simp [tryAddSensor, add_sensor, AddSensorArg.valueAttr, hv]
  · intro t ht
    cases t with
    | temperature => exact absurd rfl ht
    | humidity => exact ⟨rfl, rfl⟩
    | light => exact ⟨rfl, rfl⟩
    | motion => exact ⟨rfl, rfl⟩

/-- Witness for C6 (amended) at concrete inputs: a raw string argument, an
object with the unknown tag FAKE, and the light enumeration member. -/
theorem add_sensor_rejects_unrecognized_witness :
    (add_sensor (SensorManager.init "localhost:50051")
        (AddSensorArg.nonValueObj "str object has no attribute value") 2 =
      Except.error (PyError.attributeError "str object has no attribute value"))
    ∧ (add_sensor (SensorManager.init "localhost:50051")
        (AddSensorArg.objWithValue "FAKE") 2 =
      Except.error (PyError.keyError "FAKE"))
    ∧ (add_sensor (SensorManager.init "localhost:50051")
        (AddSensorArg.enumMember SensorType.light) 2 =
      Except.error (PyError.keyError "light")) := by
  have h := add_sensor_rejects_unrecognized (SensorManager.init "localhost:50051") 2
  exact ⟨(h.1 "str object has no attribute value").1,
    (h.2.1 "FAKE" (by decide)).1, (h.2.2 SensorType.light (by decide)).1⟩

/-- C9: the closed type-to-constructor mapping holds exactly the one
temperature entry; add_sensor with any other enumeration member —
humidity, light or motion — fails with a KeyError lookup error and appends
nothing; consequently every sensor a successful call registers is a
temperature sensor; and the manager enumeration tags light and motion are
not members of the Reading sensor_type Literal set. -/
theorem only_temperature_mapped (m : SensorManagerState) (iv : ℚ) :
    (SENSOR_TYPE_MAPPING = [("temperature", SensorCtor.temperatureSensor)])
    ∧ (∀ t : SensorType, t ≠ SensorType.temperature →
        add_sensor m (AddSensorArg.enumMember t) iv =
          Except.error (PyError.keyError t.value)
        ∧ tryAddSensor m (AddSensorArg.enumMember t) iv = m)
    ∧ (∀ (arg : AddSensorArg) (m2 : SensorManagerState),
        add_sensor m arg iv = Except.ok m2 →
        ∀ s ∈ m2.sensors, s ∈ m.sensors ∨ s.sensor_type = NodeSensorType.temperature)
    ∧ ("light" ∉ sensorTypeLiterals ∧ "motion" ∉ sensorTypeLiterals) := by
  refine ⟨rfl, ?_, ?_, by decide, by decide⟩
  · intro t ht
    cases t with
    | temperature => exact absurd rfl ht
    | humidity => exact ⟨rfl, rfl⟩
    | light => exact ⟨rfl, rfl⟩
    | motion => exact ⟨rfl, rfl⟩
  · intro arg m2 hadd s hs
    obtain ⟨v, _, _, hm2⟩ := add_sensor_ok_shape m arg iv m2 hadd
    subst hm2
    rcases List.mem_append.mp hs with h1 | h2
    · exact Or.inl h1
    · simp only [List.mem_singleton] at h2
      subst h2
      exact Or.inr rfl

/-- Witness for C9 at concrete inputs: the motion member is rejected with
KeyError, and the sensor registered by a successful temperature call on a
fresh manager is a temperature sensor. -/
theorem only_temperature_mapped_witness :
    (add_sensor (SensorManager.init "localhost:50051")
        (AddSensorArg.enumMember SensorType.motion) 2 =
      Except.error (PyError.keyError "motion"))
    ∧ (TemperatureSensor.init "sensor_1" 2 ∈ (SensorManager.init "localhost:50051").sensors
      ∨ (TemperatureSensor.init "sensor_1" 2).sensor_type = NodeSensorType.temperature) := by
  have h := only_temperature_mapped (SensorManager.init "localhost:50051") 2
  refine ⟨(h.2.1 SensorType.motion (by decide)).1, ?_⟩
  exact h.2.2.1 (AddSensorArg.enumMember SensorType.temperature)
    (tryAddSensor (SensorManager.init "localhost:50051")
      (AddSensorArg.enumMember SensorType.temperature) 2) rfl
    (TemperatureSensor.init "sensor_1" 2) (by decide)

/-- C3: a transport failure on a send is recovered locally within that
iteration: the iteration always completes with exactly one log line — on
failure, an error line carrying the failure detail — and never stops the
loop (no stop signal means the loop never exits, a failing first send
included) and never retries within the tick; in the scenario with a
failure on the first send and successes after, a run stopped at check
k ≥ 1 logs one error line followed by success lines only, one line per
completed tick, the running flag having stayed true until the stop. -/
theorem transport_failure_recovered (st : NodeState) (hid : 1 ≤ st.sensor_id.length)
    (values : ℕ → ℚ) (clock : ℕ → ℤ) (outcomes : ℕ → SendOutcome)
    (msgs : ℕ → String) (d : String)
    (hfail : outcomes 0 = SendOutcome.rpcError d)
    (hsucc : ∀ i, 1 ≤ i → outcomes i = SendOutcome.success (msgs i)) :
    (∀ i, runIteration st (values i) (clock i) (outcomes i) =
        Except.ok (iterLog st (values i) (outcomes i)))
    ∧ (runIteration st (values 0) (clock 0) (outcomes 0) =
        Except.ok (LogLine.grpcError st.sensor_id d))
    ∧ (∀ fuel i, runLoop st values clock outcomes (fun _ => true) fuel i = none)
    ∧ (∀ k fuel, 1 ≤ k → k < fuel →
        runLoop st values clock outcomes (fun j => decide (j < k)) fuel 0 =
          some (Except.ok (LogLine.grpcError st.sensor_id d ::
            (List.range' 1 (k - 1)).map (fun j =>
              LogLine.sent st.sensor_id (PyFloat.finite (values j))
                st.sensor_type.value (msgs j)))))
    ∧ (∀ k, 1 ≤ k →
        (LogLine.grpcError st.sensor_id d ::
          (List.range' 1 (k - 1)).map (fun j =>
            LogLine.sent st.sensor_id (PyFloat.finite (values j))
              st.sensor_type.value (msgs j))).length = k) := by
  refine ⟨fun i => runIteration_ok st hid (values i) (clock i) (outcomes i), ?_, ?_, ?_, ?_⟩
  · rw [runIteration_ok st hid, hfail]
    rfl
  · exact runLoop_no_stop st hid values clock outcomes
  · intro k fuel hk hfuel
    rw [runLoop_exits st hid values clock outcomes k fuel 0 (by omega) (by omega)]
    have hsplit : k - 0 = (k - 1) + 1 := by omega
    rw [hsplit, List.range'_succ]
    simp only [List.map_cons, Option.some.injEq, Except.ok.injEq, List.cons.injEq]
    constructor
    · rw [hfail]
      rfl
    · refine List.map_congr_left ?_
      intro j hj
      have hj1 : 1 ≤ j := by
        have := (List.mem_range'_1.mp hj).1
        omega
      rw [hsucc j hj1]
      rfl
  · intro k hk
    simp only [List.length_cons, List.length_map, List.length_range']
    omega

/-- Witness for C3 at a concrete run: node sensor_1, transport failing on
the first send with detail unavailable and succeeding with message ok
after, stop observed at check 3: the log is the error line followed by two
success lines. -/
theorem transport_failure_recovered_witness :
    runLoop (TemperatureSensor.init "sensor_1" 2) (fun _ => 20) (fun _ => 0)
        (fun i => if i = 0 then SendOutcome.rpcError "unavailable"
          else SendOutcome.success "ok")
        (fun j => decide (j < 3)) 4 0 =
      some (Except.ok [LogLine.grpcError "sensor_1" "unavailable",
        LogLine.sent "sensor_1" (PyFloat.finite 20) "temperature" "ok",
        LogLine.sent "sensor_1" (PyFloat.finite 20) "temperature" "ok"]) := by
  have h := transport_failure_recovered (TemperatureSensor.init "sensor_1" 2) (by decide)
    (fun _ => 20) (fun _ => 0)
    (fun i => if i = 0 then SendOutcome.rpcError "unavailable"
      else SendOutcome.success "ok")
    (fun _ => "ok") "unavailable" rfl
    (fun i hi => by
      have : i ≠ 0 := by omega
      simp [this])
  have h4 := h.2.2.2.1 3 4 (by omega) (by omega)
  exact h4

/-- C10 counterexample: a schedule in which the stop write becomes visible
between run() entry and the first top-of-loop check: run() was entered —
the running flag was set True — and yet the loop exits at check 0 with
zero completed iterations, before any read_data, send attempt or sleep, so
it is not the case that at least one full iteration completes before a
stop request takes effect and run() returns. -/
theorem run_zero_iterations_counterexample :
    ((runEntry (TemperatureSensor.init "sensor_1" 2)).running = true)
    ∧ (runLoop (TemperatureSensor.init "sensor_1" 2) (fun _ => 20) (fun _ => 0)
        (fun _ => SendOutcome.success "ok") (fun j => decide (j < 0)) 1 0 =
        some (Except.ok []))
    ∧ (([] : List LogLine).length = 0) := ⟨rfl, rfl, rfl⟩

/-- C10 (amended): run() sets the running flag True unconditionally on
entry, so a stop() issued before run() starts does not prevent the loop
from beginning — entry after a prior stop produces the same state as entry
alone; the flag is re-read only at the top of each iteration, so every
iteration whose check read True completes in full before the stop takes
effect: a stop first observed at check k ends the run with exactly k
completed iterations, and whenever the first check reads True (k ≥ 1) at
least one full iteration completes; a stop whose write lands between entry
and the first check, however, ends the loop with zero iterations. -/
theorem run_entry_and_cooperative_stop (st : NodeState) (hid : 1 ≤ st.sensor_id.length)
    (values : ℕ → ℚ) (clock : ℕ → ℤ) (outcomes : ℕ → SendOutcome) :
    (∀ s : NodeState, (runEntry s).running = true)
    ∧ (runEntry (stopTimes 1 st) = runEntry st)
    ∧ (∀ k fuel, k < fuel →
        runLoop st values clock outcomes (fun j => decide (j < k)) fuel 0 =
          some (Except.ok ((List.range' 0 k).map
            (fun j => iterLog st (values j) (outcomes j)))))
    ∧ (∀ k, ((List.range' 0 k).map
        (fun j => iterLog st (values j) (outcomes j))).length = k)
    ∧ (∀ k, 1 ≤ k → 1 ≤ ((List.range' 0 k).map
        (fun j => iterLog st (values j) (outcomes j))).length) := by
  refine ⟨fun s => rfl, rfl, ?_, ?_, ?_⟩
  · intro k fuel hfuel
    have h := runLoop_exits st hid values clock outcomes k fuel 0 (by omega) (by omega)
    simpa using h
  · intro k
    simp
  · intro k hk
    simpa using hk

/-- Witness for C10 (amended) at a concrete run: node sensor_1, stop
observed at check 1, fuel 2: entry sets the flag, and the run completes
exactly one full iteration. -/
theorem run_entry_and_cooperative_stop_witness :
    ((runEntry (TemperatureSensor.init "sensor_1" 2)).running = true)
    ∧ (runLoop (TemperatureSensor.init "sensor_1" 2) (fun _ => 20) (fun _ => 0)
        (fun _ => SendOutcome.success "ok") (fun j => decide (j < 1)) 2 0 =
        some (Except.ok ((List.range' 0 1).map (fun _ =>
          iterLog (TemperatureSensor.init "sensor_1" 2) 20 (SendOutcome.success "ok"))))) := by
  have h := run_entry_and_cooperative_stop (TemperatureSensor.init "sensor_1" 2) (by decide)
    (fun _ => 20) (fun _ => 0) (fun _ => SendOutcome.success "ok")
  exact ⟨h.1 (TemperatureSensor.init "sensor_1" 2), h.2.2.1 1 2 (by omega)⟩

/-- C1: stop_all first invokes stop() on every registered sensor — after
that signal phase every sensor's running flag is False — and then joins
every execution unit recorded by start_all, which launched exactly one
unit per registered sensor; each unit's loop observes the False flag at
its next top-of-loop check, index p for that unit, and exits within p + 1
checks whatever its transport outcomes — continuous send failures
included, since an iteration completes on failure too — with exactly p
completed iterations logged; hence every join returns and stop_all returns
only after every launched unit has exited. -/
theorem stop_all_completeness (m : SensorManagerState)
    (hids : ∀ s ∈ m.sensors, 1 ≤ s.sensor_id.length) :
    ((start_all m).threads = m.threads ++ m.sensors ∧ (start_all m).sensors = m.sensors)
    ∧ ((stop_all_signals (start_all m)).sensors =
        m.sensors.map (fun s => { s with running := false })
      ∧ ∀ s ∈ (stop_all_signals (start_all m)).sensors, s.running = false)
    ∧ (∀ s ∈ m.sensors, ∀ (values : ℕ → ℚ) (clock : ℕ → ℤ)
        (outcomes : ℕ → SendOutcome) (p : ℕ),
        runLoop s values clock outcomes (fun i => decide (i < p)) (p + 1) 0 =
          some (Except.ok ((List.range' 0 p).map
            (fun j => iterLog s (values j) (outcomes j))))
        ∧ ((List.range' 0 p).map (fun j => iterLog s (values j) (outcomes j))).length = p) := by
  refine ⟨⟨by simp [start_all], rfl⟩, ⟨rfl, ?_⟩, ?_⟩
  · intro s hs
    simp only [stop_all_signals, start_all, List.mem_map] at hs
    obtain ⟨t, _, ht⟩ := hs
    rw [← ht]
  · intro s hs values clock outcomes p
    constructor
    · have h := runLoop_exits s (hids s hs) values clock outcomes p (p + 1) 0
        (by omega) (by omega)
      simpa using h
    · simp

/-- Witness for C1 at a concrete fleet: a fresh manager with two
temperature sensors whose transports fail on every tick; with each unit's
stop observed at check 1, both units exit after exactly one iteration. -/
theorem stop_all_completeness_witness :
    ((start_all (addTemperatureN "localhost:50051" (fun _ => 2) 2)).threads =
      [TemperatureSensor.init "sensor_1" 2, TemperatureSensor.init "sensor_2" 2])
    ∧ (runLoop (TemperatureSensor.init "sensor_1" 2) (fun _ => 20) (fun _ => 0)
        (fun _ => SendOutcome.rpcError "unavailable") (fun i => decide (i < 1)) 2 0 =
        some (Except.ok ((List.range' 0 1).map (fun _ =>
          iterLog (TemperatureSensor.init "sensor_1" 2) 20
            (SendOutcome.rpcError "unavailable")))))
    ∧ (runLoop (TemperatureSensor.init "sensor_2" 2) (fun _ => 20) (fun _ => 0)
        (fun _ => SendOutcome.rpcError "unavailable") (fun i => decide (i < 1)) 2 0 =
        some (Except.ok ((List.range' 0 1).map (fun _ =>
          iterLog (TemperatureSensor.init "sensor_2" 2) 20
            (SendOutcome.rpcError "unavailable"))))) := by
  have h := stop_all_completeness (addTemperatureN "localhost:50051" (fun _ => 2) 2)
    (by decide)
  refine ⟨?_, ?_, ?_⟩
  · rw [h.1.1]
    decide
  · exact (h.2.2 (TemperatureSensor.init "sensor_1" 2) (by decide)
      (fun _ => 20) (fun _ => 0) (fun _ => SendOutcome.rpcError "unavailable") 1).1
  · exact (h.2.2 (TemperatureSensor.init "sensor_2" 2) (by decide)
      (fun _ => 20) (fun _ => 0) (fun _ => SendOutcome.rpcError "unavailable") 1).1

end MASmartHome
